import Mathlib

set_option autoImplicit false

/-!
Verification development for the bosh-bootloader command layer:
a shallow embedding of `commands/gcp_up.go` (the GCP "up" pipeline) and
`commands/state_query.go` (the state query commands), together with
theorems settling the specification claims about them.

External collaborators (state store, keypair updater, terraform applier,
terraform outputer, bosh deployer, cloud-config generator, bosh client,
filesystem helpers) are modelled as oracles: each collaborator outcome is a
pair of an optional error and the value it would return on success.  The
pipeline records an event trace of the collaborator calls it makes, in
order, so that temporal claims (persist-after-each-step, call counts)
become statements about the trace.
-/

namespace BBL

/-- Error values returned by collaborators and surfaced by the pipeline. -/
abbrev Err := String

/-- GCP credential block of the persisted state (storage.GCP). -/
structure GCP where
  serviceAccountKey : String := ""
  projectID : String := ""
  region : String := ""
  zone : String := ""
  deriving Repr, DecidableEq

/-- Modelled from the spec: storage.KeyPair is not under src/.  The spec
data model gives `KeyPair`: \x7bpublicKey, privateKey\x7d, whose absence
means "not yet created". -/
structure KeyPair where
  publicKey : String := ""
  privateKey : String := ""
  deriving Repr, DecidableEq

/-- Modelled from the spec: storage.KeyPair.IsEmpty is not under src/.
Absence of the keypair material means "not yet created". -/
def KeyPair.IsEmpty (k : KeyPair) : Bool :=
  k.publicKey == "" && k.privateKey == ""

/-- Director sub-document of the persisted state (storage.BOSH). -/
structure BOSH where
  directorName : String := ""
  directorAddress : String := ""
  directorUsername : String := ""
  directorPassword : String := ""
  directorSSLCA : String := ""
  directorSSLCertificate : String := ""
  directorSSLPrivateKey : String := ""
  credentials : List (String × String) := []
  boshState : String := ""
  manifest : String := ""
  deriving Repr, DecidableEq

/-- Modelled from the spec: storage.BOSH.IsEmpty is not under src/.  The
spec says first-time deploys populate `Director` and emptiness of the
sub-document is the "not yet deployed" test, so IsEmpty holds exactly when
every field has its zero value. -/
def BOSH.IsEmpty (b : BOSH) : Bool :=
  b.directorName == "" && b.directorAddress == "" && b.directorUsername == "" &&
  b.directorPassword == "" && b.directorSSLCA == "" && b.directorSSLCertificate == "" &&
  b.directorSSLPrivateKey == "" && b.credentials.isEmpty && b.boshState == "" &&
  b.manifest == ""

/-- Jumpbox sub-document of the persisted state. -/
structure Jumpbox where
  enabled : Bool := false
  url : String := ""
  deriving Repr, DecidableEq

/-- Legacy stack sub-document of the persisted state. -/
structure Stack where
  name : String := ""
  deriving Repr, DecidableEq

/-- The persisted environment state document (storage.State), restricted to
the fields the embedded commands read or write. -/
structure State where
  iaas : String := ""
  envID : String := ""
  gcp : GCP := {}
  keyPair : KeyPair := {}
  tfState : String := ""
  bosh : BOSH := {}
  noDirector : Bool := false
  jumpbox : Jumpbox := {}
  stack : Stack := {}
  deriving Repr, DecidableEq

/-- GCPUpConfig from commands/gcp_up.go. -/
structure GCPUpConfig where
  serviceAccountKeyPath : String := ""
  projectID : String := ""
  zone : String := ""
  region : String := ""
  deriving Repr, DecidableEq

/-- GCPUpConfig.empty from commands/gcp_up.go. -/
def GCPUpConfig.empty (c : GCPUpConfig) : Bool :=
  c.serviceAccountKeyPath == "" && c.projectID == "" && c.region == "" && c.zone == ""

/-- The deploy input built by boshinit.NewDeployInput (restricted to the
fields GCPUp.Execute reads). -/
structure DeployInput where
  directorName : String := ""
  directorUsername : String := ""
  directorPassword : String := ""
  deriving Repr, DecidableEq

/-- The output of boshDeployer.Deploy (restricted to the fields
GCPUp.Execute reads). -/
structure DeployOutput where
  sslCA : String := ""
  sslCertificate : String := ""
  sslPrivateKey : String := ""
  credentials : List (String × String) := []
  boshInitState : String := ""
  boshInitManifest : String := ""
  deriving Repr, DecidableEq

/-- Oracles for the collaborators of GCPUp.Execute.  Each field is the
outcome of the corresponding call site: an optional error paired with the
success value (the value is ignored when the error is present, matching the
Go convention of discarding results on non-nil error). -/
structure Collab where
  /-- ioutil.ReadFile on the service account key path. -/
  readFile : Option Err × String := (none, "")
  /-- json.Unmarshal of the service account key contents. -/
  jsonErr : Option Err := none
  /-- stateStore.Set after IAAS and credentials are set (gcp_up.go line 100). -/
  setAfterCreds : Option Err := none
  /-- gcpProvider.SetConfig. -/
  setConfigErr : Option Err := none
  /-- keyPairUpdater.Update. -/
  keyPairUpdate : Option Err × KeyPair := (none, {})
  /-- stateStore.Set after the keypair is generated (gcp_up.go line 114). -/
  setAfterKeyPair : Option Err := none
  /-- ioutil.TempDir. -/
  tempDirErr : Option Err := none
  /-- writeFile of the credentials file. -/
  writeFileErr : Option Err := none
  /-- terraformApplier.Apply: optional error and the returned tfState blob. -/
  tfApply : Option Err × String := (none, "")
  /-- stateStore.Set after the terraform apply returns (gcp_up.go line 136). -/
  setAfterApply : Option Err := none
  /-- terraformOutputer.Get, per output name. -/
  getOutput : String → Option Err × String := fun _ => (none, "")
  /-- boshinit.NewDeployInput. -/
  newDeployInput : Option Err × DeployInput := (none, {})
  /-- boshDeployer.Deploy. -/
  deploy : Option Err × DeployOutput := (none, {})
  /-- stateStore.Set after the director deploy returns (gcp_up.go line 205). -/
  setAfterDeploy : Option Err := none
  /-- cloudConfigGenerator.Generate. -/
  generateErr : Option Err := none
  /-- yaml.Marshal of the cloud config. -/
  marshalErr : Option Err := none
  /-- boshClient.UpdateCloudConfig. -/
  updateCloudConfigErr : Option Err := none

/-- Events recording, in order, the collaborator calls GCPUp.Execute makes. -/
inductive Event where
  | setState (s : State)
  | setConfig (serviceAccountKey : String)
  | keypairUpdate (projectID : String)
  | tfApply (envID projectID zone region tfState : String)
  | getOutput (name : String)
  | deploy
  | generateCloudConfig (azs : List String) (tags : List String)
  | updateCloudConfig
  deriving Repr, DecidableEq

/-- GCPUp.parseUpConfig from commands/gcp_up.go: validates the path, reads
the service account key file and checks it parses as JSON. -/
def parseUpConfig (c : Collab) (cfg : GCPUpConfig) : Except Err GCP :=
  if cfg.serviceAccountKeyPath = "" then
    .error "GCP service account key must be provided"
  else
    match c.readFile.1 with
    | some e => .error ("error reading service account key: " ++ e)
    | none =>
      match c.jsonErr with
      | some e => .error ("error parsing service account key: " ++ e)
      | none =>
        .ok { serviceAccountKey := c.readFile.2
              projectID := cfg.projectID
              zone := cfg.zone
              region := cfg.region }

/-- The config-application prologue of GCPUp.Execute (gcp_up.go lines
86-94): when the up config is non-empty, parse it and set IAAS and GCP
credentials in the state. -/
def configuredState (c : Collab) (cfg : GCPUpConfig) (s : State) : Except Err State :=
  if cfg.empty then .ok s
  else
    match parseUpConfig c cfg with
    | .error e => .error e
    | .ok g => .ok { s with iaas := "gcp", gcp := g }

/-- GCPUp.validateState from commands/gcp_up.go: a switch returning the
first missing GCP credential field. -/
def validateState (s : State) : Except Err Unit :=
  if s.gcp.serviceAccountKey = "" then .error "GCP service account key must be provided"
  else if s.gcp.projectID = "" then .error "GCP project ID must be provided"
  else if s.gcp.region = "" then .error "GCP region must be provided"
  else if s.gcp.zone = "" then .error "GCP zone must be provided"
  else .ok ()

/-- GCPUp.getAZs from commands/gcp_up.go: a static region to
availability-zone table; a Go map lookup on an absent key yields the zero
value, here the empty list. -/
def getAZs (region : String) : List String :=
  if region = "us-west1" then ["us-west1-a", "us-west1-b"]
  else if region = "us-central1" then
    ["us-central1-a", "us-central1-b", "us-central1-c", "us-central1-f"]
  else if region = "us-east1" then ["us-east1-b", "us-east1-c", "us-east1-d"]
  else if region = "europe-west1" then ["europe-west1-b", "europe-west1-c", "europe-west1-d"]
  else if region = "asia-east1" then ["asia-east1-a", "asia-east1-b", "asia-east1-c"]
  else if region = "asia-northeast1" then
    ["asia-northeast1-a", "asia-northeast1-b", "asia-northeast1-c"]
  else []

/-- The regions present in the static getAZs table. -/
def azRegions : List String :=
  ["us-west1", "us-central1", "us-east1", "europe-west1", "asia-east1", "asia-northeast1"]

/-- The state after the keypair step: when the keypair in state is empty
it is replaced by the generated one, otherwise the state is unchanged
(gcp_up.go lines 108-117). -/
def keypairState (c : Collab) (s1 : State) : State :=
  if s1.keyPair.IsEmpty then { s1 with keyPair := c.keyPairUpdate.2 } else s1

/-- The state after the terraform apply step: the tfState blob is replaced
by the one the applier returned (gcp_up.go line 135). -/
def appliedState (c : Collab) (s2 : State) : State :=
  { s2 with tfState := c.tfApply.2 }

/-- The director sub-document after the deploy step: populated from the
deploy input and output on a first-time deploy, and kept as-is on a
re-deploy (gcp_up.go lines 189-200). -/
def deployedBOSH (c : Collab) (s3 : State) : BOSH :=
  if s3.bosh.IsEmpty then
    { directorName := c.newDeployInput.2.directorName
      directorAddress := (c.getOutput "director_address").2
      directorUsername := c.newDeployInput.2.directorUsername
      directorPassword := c.newDeployInput.2.directorPassword
      directorSSLCA := c.deploy.2.sslCA
      directorSSLCertificate := c.deploy.2.sslCertificate
      directorSSLPrivateKey := c.deploy.2.sslPrivateKey
      credentials := c.deploy.2.credentials }
  else s3.bosh

/-- The state persisted after the director deploy: the director
sub-document with its deployment-tool state and manifest replaced by the
deploy output (gcp_up.go lines 202-203). -/
def deployedState (c : Collab) (s2 : State) : State :=
  { appliedState c s2 with
      bosh := { deployedBOSH c (appliedState c s2) with
                  boshState := c.deploy.2.boshInitState
                  manifest := c.deploy.2.boshInitManifest } }

/-- The part of GCPUp.Execute from the scratch-directory preparation
onwards (gcp_up.go lines 119-235), given the state after the keypair step.
Returns the result and the trace of collaborator calls from this point. -/
def executeTail (c : Collab) (s2 : State) : Except Err Unit × List Event :=
  match c.tempDirErr with
  | some e => (.error e, [])
  | none =>
  match c.writeFileErr with
  | some e => (.error e, [])
  | none =>
  match c.tfApply.1 with
  | some e => (.error e, [Event.tfApply s2.envID s2.gcp.projectID s2.gcp.zone
      s2.gcp.region s2.tfState])
  | none =>
  let tr5 := [Event.tfApply s2.envID s2.gcp.projectID s2.gcp.zone s2.gcp.region s2.tfState,
    Event.setState (appliedState c s2)]
  match c.setAfterApply with
  | some e => (.error e, tr5)
  | none =>
  let tr6 := tr5 ++ [Event.getOutput "external_ip"]
  match (c.getOutput "external_ip").1 with
  | some e => (.error e, tr6)
  | none =>
  let tr7 := tr6 ++ [Event.getOutput "network_name"]
  match (c.getOutput "network_name").1 with
  | some e => (.error e, tr7)
  | none =>
  let tr8 := tr7 ++ [Event.getOutput "subnetwork_name"]
  match (c.getOutput "subnetwork_name").1 with
  | some e => (.error e, tr8)
  | none =>
  let tr9 := tr8 ++ [Event.getOutput "bosh_open_tag_name"]
  match (c.getOutput "bosh_open_tag_name").1 with
  | some e => (.error e, tr9)
  | none =>
  let tr10 := tr9 ++ [Event.getOutput "internal_tag_name"]
  match (c.getOutput "internal_tag_name").1 with
  | some e => (.error e, tr10)
  | none =>
  let tr11 := tr10 ++ [Event.getOutput "director_address"]
  match (c.getOutput "director_address").1 with
  | some e => (.error e, tr11)
  | none =>
  match c.newDeployInput.1 with
  | some e => (.error e, tr11)
  | none =>
  let tr12 := tr11 ++ [Event.deploy]
  match c.deploy.1 with
  | some e => (.error e, tr12)
  | none =>
  let tr13 := tr12 ++ [Event.setState (deployedState c s2)]
  match c.setAfterDeploy with
  | some e => (.error e, tr13)
  | none =>
  let tr14 := tr13 ++
    [Event.generateCloudConfig (getAZs (appliedState c s2).gcp.region)
      [(c.getOutput "internal_tag_name").2]]
  match c.generateErr with
  | some e => (.error e, tr14)
  | none =>
  match c.marshalErr with
  | some e => (.error e, tr14)
  | none =>
  let tr15 := tr14 ++ [Event.updateCloudConfig]
  match c.updateCloudConfigErr with
  | some e => (.error e, tr15)
  | none => (.ok (), tr15)

/-- GCPUp.Execute from commands/gcp_up.go, returning its result together
with the ordered trace of collaborator calls.  Each event is recorded at
the call site; a collaborator error aborts the pipeline with that error. -/
def execute (c : Collab) (cfg : GCPUpConfig) (s0 : State) :
    Except Err Unit × List Event :=
  match configuredState c cfg s0 with
  | .error e => (.error e, [])
  | .ok s1 =>
    match validateState s1 with
    | .error e => (.error e, [])
    | .ok _ =>
      let tr1 := [Event.setState s1]
      match c.setAfterCreds with
      | some e => (.error e, tr1)
      | none =>
        let tr2 := tr1 ++ [Event.setConfig s1.gcp.serviceAccountKey]
        match c.setConfigErr with
        | some e => (.error e, tr2)
        | none =>
          if s1.keyPair.IsEmpty then
            let tr3 := tr2 ++ [Event.keypairUpdate s1.gcp.projectID]
            match c.keyPairUpdate.1 with
            | some e => (.error e, tr3)
            | none =>
              let s2 := keypairState c s1
              let tr4 := tr3 ++ [Event.setState s2]
              match c.setAfterKeyPair with
              | some e => (.error e, tr4)
              | none =>
                let t := executeTail c s2
                (t.1, tr4 ++ t.2)
          else
            let t := executeTail c s1
            (t.1, tr2 ++ t.2)

/-- The call sequence of an executeTail run that completes every step:
terraform apply then Set, the six output reads, deploy then Set,
cloud-config generation and application. -/
def fullTraceTail (c : Collab) (s2 : State) : List Event :=
  [Event.tfApply s2.envID s2.gcp.projectID s2.gcp.zone s2.gcp.region s2.tfState,
   Event.setState (appliedState c s2),
   Event.getOutput "external_ip", Event.getOutput "network_name",
   Event.getOutput "subnetwork_name", Event.getOutput "bosh_open_tag_name",
   Event.getOutput "internal_tag_name", Event.getOutput "director_address",
   Event.deploy, Event.setState (deployedState c s2),
   Event.generateCloudConfig (getAZs (appliedState c s2).gcp.region)
     [(c.getOutput "internal_tag_name").2],
   Event.updateCloudConfig]

/-- The full checkpoint-interleaved call sequence of an "up" run that
completes every step: Set after credentials, SetConfig, (when the keypair
is empty) keypair update then Set, terraform apply then Set, the six
output reads, deploy then Set, cloud-config generation and application.
An actual run's trace is always a prefix of this list, truncated at the
first failing collaborator. -/
def fullTrace (c : Collab) (cfg : GCPUpConfig) (s0 : State) : List Event :=
  match configuredState c cfg s0 with
  | .error _ => []
  | .ok s1 =>
    match validateState s1 with
    | .error _ => []
    | .ok _ =>
      [Event.setState s1, Event.setConfig s1.gcp.serviceAccountKey] ++
      (if s1.keyPair.IsEmpty then
        [Event.keypairUpdate s1.gcp.projectID, Event.setState (keypairState c s1)]
      else []) ++
      fullTraceTail c (keypairState c s1)

/-- Number of keypair-generator calls recorded in a trace. -/
def keypairCalls (tr : List Event) : Nat :=
  tr.countP fun ev =>
    match ev with
    | .keypairUpdate _ => true
    | _ => false

/-- Whether a trace contains a state-store write whose persisted tfState
field equals the given blob. -/
def persistsBlob (tr : List Event) (blob : String) : Bool :=
  tr.any fun ev =>
    match ev with
    | .setState σ => σ.tfState == blob
    | _ => false

/-! State query commands, from commands/state_query.go. -/

/-- Property-name constants from commands/state_query.go. -/
def envIDPropertyName : String := "environment id"

/-- Property name of the jumpbox address query. -/
def jumpboxAddressPropertyName : String := "jumpbox address"

/-- Property name of the director username query. -/
def directorUsernamePropertyName : String := "director username"

/-- Property name of the director password query. -/
def directorPasswordPropertyName : String := "director password"

/-- Property name of the director address query. -/
def directorAddressPropertyName : String := "director address"

/-- Property name of the director CA certificate query. -/
def directorCACertPropertyName : String := "director ca cert"

/-- Errors surfaced by a state query: an ordinary error message, or a Go
runtime panic (the non-checked type assertion in getEIP panics when the
terraform output map lacks the key). -/
inductive QErr where
  | msg (m : String)
  | panicked (m : String)
  deriving Repr, DecidableEq

/-- Oracles for the collaborators of StateQuery. -/
structure QOracles where
  /-- stateValidator.Validate. -/
  validateErr : Option Err := none
  /-- infrastructureManager.Describe: optional error and the stack output
  map, a Go map\x5bstring\x5dstring modelled as a total function defaulting
  to the empty string on absent keys. -/
  describe : Option Err × (String → String) := (none, fun _ => "")
  /-- terraformManager.GetOutputs: optional error and the output map, a Go
  map\x5bstring\x5dinterface\x7b\x7d modelled as an association list; an
  absent key makes the type assertion panic. -/
  getOutputs : Option Err × List (String × String) := (none, [])

/-- StateQuery.getEIP from commands/state_query.go. -/
def getEIP (o : QOracles) (s : State) : Except QErr String :=
  if s.iaas = "aws" then
    match o.describe.1 with
    | some e => .error (.msg e)
    | none => .ok (o.describe.2 "BOSHEIP")
  else if s.iaas = "gcp" then
    match o.getOutputs.1 with
    | some e => .error (.msg e)
    | none =>
      match o.getOutputs.2.lookup "external_ip" with
      | some v => .ok v
      | none => .error (.panicked "interface conversion: interface is nil, not string")
  else .error (.msg "Could not find external IP for given IAAS")

/-- The property-value resolution switch of StateQuery.Execute
(state_query.go lines 60-84): the value the command would print, before
the emptiness check.  A property name outside the switch leaves the value
empty. -/
def resolveProperty (o : QOracles) (p : String) (s : State) : Except QErr String :=
  if p = jumpboxAddressPropertyName then
    .ok (if s.jumpbox.enabled then s.jumpbox.url else "")
  else if p = directorAddressPropertyName then
    if !s.noDirector then .ok s.bosh.directorAddress
    else
      match getEIP o s with
      | .error e => .error e
      | .ok ip => .ok ("https://" ++ ip ++ ":25555")
  else if p = directorUsernamePropertyName then .ok s.bosh.directorUsername
  else if p = directorPasswordPropertyName then .ok s.bosh.directorPassword
  else if p = directorCACertPropertyName then .ok s.bosh.directorSSLCA
  else if p = envIDPropertyName then .ok s.envID
  else .ok ""

/-- StateQuery.Execute from commands/state_query.go: resolves the property
value, errors when it is empty, otherwise prints it.  The ok payload is
the printed value; on error nothing is printed. -/
def stateQueryExecute (o : QOracles) (p : String) (s : State) : Except QErr String :=
  match resolveProperty o p s with
  | .error e => .error e
  | .ok v =>
    if v = "" then
      .error (.msg ("Could not retrieve " ++ p ++
        ", please make sure you are targeting the proper state dir."))
    else .ok v

/-- StateQuery.CheckFastFails from commands/state_query.go. -/
def checkFastFails (o : QOracles) (p : String) (s : State) : Except QErr Unit :=
  match o.validateErr with
  | some e => .error (.msg e)
  | none =>
    if s.noDirector ∧ p ≠ directorAddressPropertyName ∧ p ≠ envIDPropertyName then
      .error (.msg "Error BBL does not manage this director.")
    else .ok ()


/-! Concrete fixtures used by witnesses and counterexamples. -/

/-- A GCP state with credentials present, an empty keypair and no director. -/
def stateGCPReady : State :=
  { iaas := "gcp", envID := "some-env",
    gcp := { serviceAccountKey := "sak", projectID := "proj", region := "us-west1",
             zone := "us-west1-a" },
    tfState := "old-tf" }

/-- Collaborator oracles in which every call succeeds. -/
def collabAllOK : Collab :=
  { getOutput := fun n => (none, "v-" ++ n),
    keyPairUpdate := (none, { publicKey := "pub", privateKey := "priv" }),
    tfApply := (none, "new-tf"),
    newDeployInput := (none, { directorName := "bosh-some-env", directorUsername := "user",
                               directorPassword := "pass" }),
    deploy := (none, { sslCA := "ca", sslCertificate := "cert", sslPrivateKey := "key",
                       credentials := [("a", "b")], boshInitState := "bosh-state",
                       boshInitManifest := "mani" }) }

/-- Oracles in which the terraform applier fails while reporting a partial
state blob, as the Apply contract allows. -/
def collabApplyFails : Collab :=
  { collabAllOK with tfApply := (some "terraform apply failed", "partial-blob") }

/-- A GCP state whose director sub-document is already populated. -/
def stateWithBOSH : State :=
  { stateGCPReady with
      bosh := { directorName := "bosh-old", directorAddress := "addr",
                directorUsername := "user0", directorPassword := "pass0",
                directorSSLCA := "ca0", directorSSLCertificate := "cert0",
                directorSSLPrivateKey := "key0", credentials := [("x", "y")],
                boshState := "st0", manifest := "m0" } }

/-- A state with credentials present but a region absent from the AZ table. -/
def stateUnknownRegion : State :=
  { stateGCPReady with gcp := { stateGCPReady.gcp with region := "narnia" } }

/-- A state missing all four GCP credential fields. -/
def stateNoCreds : State := { iaas := "gcp", envID := "e" }

/-- A state missing only the service account key. -/
def stateOnlySAKMissing : State :=
  { iaas := "gcp", envID := "e",
    gcp := { serviceAccountKey := "", projectID := "p", region := "us-west1", zone := "z" } }

/-- An oracle set for the AWS state query whose stack describe call
reports a BOSHEIP output. -/
def oAWS : QOracles :=
  { describe := (none, fun n => if n = "BOSHEIP" then "10.0.0.1" else "") }

/-- An AWS state with NoDirector set. -/
def sAWSNoDir : State :=
  { iaas := "aws", envID := "e2", noDirector := true, stack := { name := "stk" } }

/-! Internal lemmas about the pipeline trace. -/

theorem executeTail_trace (c : Collab) (s2 : State) :
    (executeTail c s2).2 <+: fullTraceTail c s2 ∧
    ((executeTail c s2).1 = .ok () → (executeTail c s2).2 = fullTraceTail c s2) := by
  unfold executeTail
  cases h1 : c.tempDirErr with
  | some e => exact ⟨⟨_, rfl⟩, by simp⟩
  | none =>
  cases h2 : c.writeFileErr with
  | some e => exact ⟨⟨_, rfl⟩, by simp⟩
  | none =>
  cases h3 : c.tfApply.1 with
  | some e => exact ⟨⟨_, rfl⟩, by simp⟩
  | none =>
  cases h4 : c.setAfterApply with
  | some e => exact ⟨⟨_, rfl⟩, by simp⟩
  | none =>
  cases h5 : (c.getOutput "external_ip").1 with
  | some e => exact ⟨⟨_, rfl⟩, by simp⟩
  | none =>
  cases h6 : (c.getOutput "network_name").1 with
  | some e => exact ⟨⟨_, rfl⟩, by simp⟩
  | none =>
  cases h7 : (c.getOutput "subnetwork_name").1 with
  | some e => exact ⟨⟨_, rfl⟩, by simp⟩
  | none =>
  cases h8 : (c.getOutput "bosh_open_tag_name").1 with
  | some e => exact ⟨⟨_, rfl⟩, by simp⟩
  | none =>
  cases h9 : (c.getOutput "internal_tag_name").1 with
  | some e => exact ⟨⟨_, rfl⟩, by simp⟩
  | none =>
  cases h10 : (c.getOutput "director_address").1 with
  | some e => exact ⟨⟨_, rfl⟩, by simp⟩
  | none =>
  cases h11 : c.newDeployInput.1 with
  | some e => exact ⟨⟨_, rfl⟩, by simp⟩
  | none =>
  cases h12 : c.deploy.1 with
  | some e => exact ⟨⟨_, rfl⟩, by simp⟩
  | none =>
  cases h13 : c.setAfterDeploy with
  | some e => exact ⟨⟨_, rfl⟩, by simp⟩
  | none =>
  cases h14 : c.generateErr with
  | some e => exact ⟨⟨_, rfl⟩, by simp⟩
  | none =>
  cases h15 : c.marshalErr with
  | some e => exact ⟨⟨_, rfl⟩, by simp⟩
  | none =>
  cases h16 : c.updateCloudConfigErr with
  | some e => exact ⟨⟨_, rfl⟩, by simp⟩
  | none => exact ⟨⟨[], by simp [fullTraceTail]⟩, fun hh => by simp [fullTraceTail]⟩

theorem execute_trace (c : Collab) (cfg : GCPUpConfig) (s0 : State) :
    (execute c cfg s0).2 <+: fullTrace c cfg s0 ∧
    ((execute c cfg s0).1 = .ok () → (execute c cfg s0).2 = fullTrace c cfg s0) := by
  cases hc : configuredState c cfg s0 with
  | error e => simp [execute, fullTrace, hc]
  | ok s1 =>
  cases hv : validateState s1 with
  | error e => simp [execute, fullTrace, hc, hv]
  | ok u =>
  cases h1 : c.setAfterCreds with
  | some e =>
    simp only [execute, fullTrace, hc, hv, h1]
    exact ⟨⟨_, rfl⟩, by simp⟩
  | none =>
  cases h2 : c.setConfigErr with
  | some e =>
    simp only [execute, fullTrace, hc, hv, h1, h2]
    exact ⟨⟨_, rfl⟩, by simp⟩
  | none =>
  cases hk : s1.keyPair.IsEmpty with
  | true =>
    cases h3 : c.keyPairUpdate.1 with
    | some e =>
      simp [execute, fullTrace, hc, hv, h1, h2, hk, h3]
    | none =>
    cases h4 : c.setAfterKeyPair with
    | some e =>
      simp [execute, fullTrace, hc, hv, h1, h2, hk, h3, h4]
    | none =>
      simp [execute, fullTrace, hc, hv, h1, h2, hk, h3, h4]
      obtain ⟨t, ht⟩ := (executeTail_trace c (keypairState c s1)).1
      refine ⟨⟨t, ?_⟩, fun hh => ?_⟩
      · rw [ht]
      · rw [(executeTail_trace c (keypairState c s1)).2 hh]
  | false =>
    have hks : keypairState c s1 = s1 := by simp [keypairState, hk]
    simp [execute, fullTrace, hc, hv, h1, h2, hk, hks]
    obtain ⟨t, ht⟩ := (executeTail_trace c s1).1
    refine ⟨⟨t, ?_⟩, fun hh => ?_⟩
    · rw [ht]
    · rw [(executeTail_trace c s1).2 hh]

theorem setState_mem_fullTraceTail (c : Collab) (s2 σ : State)
    (h : Event.setState σ ∈ fullTraceTail c s2) :
    σ = appliedState c s2 ∨ σ = deployedState c s2 := by
  simp [fullTraceTail] at h
  exact h

theorem setState_mem_fullTrace (c : Collab) (cfg : GCPUpConfig) (s0 s1 σ : State)
    (hc : configuredState c cfg s0 = Except.ok s1)
    (h : Event.setState σ ∈ fullTrace c cfg s0) :
    σ = s1 ∨ σ = keypairState c s1 ∨ σ = appliedState c (keypairState c s1) ∨
      σ = deployedState c (keypairState c s1) := by
  cases hv : validateState s1 with
  | error e => simp [fullTrace, hc, hv] at h
  | ok u =>
    cases hk : s1.keyPair.IsEmpty with
    | true =>
      simp [fullTrace, hc, hv, hk] at h
      rcases h with h | h | h
      · exact Or.inl h
      · exact Or.inr (Or.inl h)
      · rcases setState_mem_fullTraceTail c (keypairState c s1) σ h with h2 | h2
        · exact Or.inr (Or.inr (Or.inl h2))
        · exact Or.inr (Or.inr (Or.inr h2))
    | false =>
      simp [fullTrace, hc, hv, hk] at h
      rcases h with h | h
      · exact Or.inl h
      · rcases setState_mem_fullTraceTail c (keypairState c s1) σ h with h2 | h2
        · exact Or.inr (Or.inr (Or.inl h2))
        · exact Or.inr (Or.inr (Or.inr h2))

theorem setState_mem_execute (c : Collab) (cfg : GCPUpConfig) (s0 : State) (σ : State)
    (h : Event.setState σ ∈ (execute c cfg s0).2) :
    Event.setState σ ∈ fullTrace c cfg s0 :=
  (execute_trace c cfg s0).1.sublist.subset h

theorem configuredState_frame (c : Collab) (cfg : GCPUpConfig) (s0 s1 : State)
    (hc : configuredState c cfg s0 = Except.ok s1) :
    s1.envID = s0.envID ∧ s1.keyPair = s0.keyPair ∧ s1.tfState = s0.tfState ∧
      s1.bosh = s0.bosh := by
  unfold configuredState at hc
  split at hc
  · cases hc
    exact ⟨rfl, rfl, rfl, rfl⟩
  · split at hc
    · cases hc
    · cases hc
      exact ⟨rfl, rfl, rfl, rfl⟩

theorem keypairState_frame (c : Collab) (s1 : State) :
    (keypairState c s1).envID = s1.envID ∧ (keypairState c s1).tfState = s1.tfState ∧
      (keypairState c s1).bosh = s1.bosh ∧ (keypairState c s1).gcp = s1.gcp := by
  unfold keypairState
  split <;> exact ⟨rfl, rfl, rfl, rfl⟩

theorem executeTail_applyFails (c : Collab) (s2 : State) (e : Err)
    (h : c.tfApply.1 = some e) :
    (∀ σ, Event.setState σ ∉ (executeTail c s2).2) ∧
    ∀ u, (executeTail c s2).1 ≠ Except.ok u := by
  cases h1 : c.tempDirErr with
  | some e1 => simp [executeTail, h1]
  | none =>
  cases h2 : c.writeFileErr with
  | some e2 => simp [executeTail, h1, h2]
  | none => simp [executeTail, h1, h2, h]

theorem https_ne_empty (ip : String) : ("https://" ++ ip ++ ":25555") ≠ "" := by
  intro h
  have h2 := congrArg String.length h
  simp [String.length_append] at h2
  exact absurd h2.1.1 (by decide)


theorem keypairCalls_executeTail (c : Collab) (s2 : State) :
    keypairCalls (executeTail c s2).2 = 0 := by
  have h0 : keypairCalls (fullTraceTail c s2) = 0 := by
    simp [keypairCalls, fullTraceTail]
  have hle : keypairCalls (executeTail c s2).2 ≤ keypairCalls (fullTraceTail c s2) := by
    unfold keypairCalls
    exact (executeTail_trace c s2).1.sublist.countP_le _
  omega

theorem mem_execute_fullTrace (c : Collab) (cfg : GCPUpConfig) (s0 : State) (ev : Event)
    (h : ev ∈ (execute c cfg s0).2) : ev ∈ fullTrace c cfg s0 :=
  (execute_trace c cfg s0).1.sublist.subset h

/-! Claim theorems. -/

/-- C1: every run of the GCP "up" pipeline persists the state through
stateStore.Set after each step that mutates cloud-visible truth and before
the next step runs — after IAAS and credentials are set, after the keypair
is generated, after the terraform apply returns its state blob, and after
the director deploy returns — so the call trace of any run is a prefix of
the checkpointed full sequence, truncated at the first failing
collaborator, and a successful run produces that sequence exactly.  An
error at any step therefore leaves exactly the checkpoints of the
completed steps persisted. -/
theorem claimC1_checkpointed_persist (c : Collab) (cfg : GCPUpConfig) (s0 : State) :
    (execute c cfg s0).2 <+: fullTrace c cfg s0 ∧
    ((execute c cfg s0).1 = Except.ok () → (execute c cfg s0).2 = fullTrace c cfg s0) :=
  execute_trace c cfg s0

/-- Witness for C1: a concrete fully successful run realises the complete
checkpointed call sequence. -/
theorem claimC1_witness :
    (execute collabAllOK {} stateGCPReady).2 = fullTrace collabAllOK {} stateGCPReady :=
  (claimC1_checkpointed_persist collabAllOK {} stateGCPReady).2 rfl

/-- Counterexample to C2: with an applier that fails while reporting a
partial state blob, Execute surfaces the error but no stateStore.Set call
during the run carries that blob — the partial state is discarded, not
persisted. -/
theorem claimC2_counterexample :
    (execute collabApplyFails {} stateGCPReady).1 = Except.error "terraform apply failed" ∧
    persistsBlob (execute collabApplyFails {} stateGCPReady).2 "partial-blob" = false :=
  ⟨rfl, rfl⟩

/-- C2 as amended: when terraformApplier.Apply exits with an error during
the "up" pipeline, GCPUp.Execute returns an error without persisting the
partial blob the applier reported: every state handed to stateStore.Set
during the run still carries the input state's tfState, and the run does
not succeed. -/
theorem claimC2_no_persist_on_apply_error (c : Collab) (cfg : GCPUpConfig) (s0 : State)
    (e : Err) (h : c.tfApply.1 = some e) :
    (∀ σ, Event.setState σ ∈ (execute c cfg s0).2 → σ.tfState = s0.tfState) ∧
    ∀ u, (execute c cfg s0).1 ≠ Except.ok u := by
  cases hc : configuredState c cfg s0 with
  | error e1 =>
    constructor
    · intro σ hm
      simp [execute, hc] at hm
    · simp [execute, hc]
  | ok s1 =>
  have hfr := configuredState_frame c cfg s0 s1 hc
  cases hv : validateState s1 with
  | error e1 =>
    constructor
    · intro σ hm
      simp [execute, hc, hv] at hm
    · simp [execute, hc, hv]
  | ok u =>
  cases h1 : c.setAfterCreds with
  | some e1 =>
    constructor
    · intro σ hm
      simp [execute, hc, hv, h1] at hm
      rw [hm]
      exact hfr.2.2.1
    · simp [execute, hc, hv, h1]
  | none =>
  cases h2 : c.setConfigErr with
  | some e1 =>
    constructor
    · intro σ hm
      simp [execute, hc, hv, h1, h2] at hm
      rw [hm]
      exact hfr.2.2.1
    · simp [execute, hc, hv, h1, h2]
  | none =>
  cases hk : s1.keyPair.IsEmpty with
  | true =>
    cases h3 : c.keyPairUpdate.1 with
    | some e1 =>
      constructor
      · intro σ hm
        simp [execute, hc, hv, h1, h2, hk, h3] at hm
        rw [hm]
        exact hfr.2.2.1
      · simp [execute, hc, hv, h1, h2, hk, h3]
    | none =>
    cases h4 : c.setAfterKeyPair with
    | some e1 =>
      constructor
      · intro σ hm
        simp [execute, hc, hv, h1, h2, hk, h3, h4] at hm
        rcases hm with hm | hm
        · rw [hm]
          exact hfr.2.2.1
        · rw [hm, (keypairState_frame c s1).2.1]
          exact hfr.2.2.1
      · simp [execute, hc, hv, h1, h2, hk, h3, h4]
    | none =>
      constructor
      · intro σ hm
        simp [execute, hc, hv, h1, h2, hk, h3, h4] at hm
        rcases hm with hm | hm | hm
        · rw [hm]
          exact hfr.2.2.1
        · rw [hm, (keypairState_frame c s1).2.1]
          exact hfr.2.2.1
        · exact absurd hm ((executeTail_applyFails c _ e h).1 σ)
      · intro u2
        simp [execute, hc, hv, h1, h2, hk, h3, h4]
        exact (executeTail_applyFails c _ e h).2 u2
  | false =>
    constructor
    · intro σ hm
      simp [execute, hc, hv, h1, h2, hk] at hm
      rcases hm with hm | hm
      · rw [hm]
        exact hfr.2.2.1
      · exact absurd hm ((executeTail_applyFails c _ e h).1 σ)
    · intro u2
      simp [execute, hc, hv, h1, h2, hk]
      exact (executeTail_applyFails c _ e h).2 u2

/-- Witness for the amended C2 at a concrete failing applier. -/
theorem claimC2_witness :
    (execute collabApplyFails {} stateGCPReady).1 ≠ Except.ok () :=
  (claimC2_no_persist_on_apply_error collabApplyFails {} stateGCPReady
    "terraform apply failed" rfl).2 ()

/-- C3: if the input state's keypair is non-empty the pipeline never calls
the keypair generator and every persisted state keeps the keypair
unchanged; if it is empty and the pipeline reaches the keypair step, the
generator is called exactly once and, when it succeeds, every state
persisted after the first checkpoint carries the returned keypair. -/
theorem claimC3_keypair_idempotent (c : Collab) (cfg : GCPUpConfig) (s0 s1 : State)
    (hc : configuredState c cfg s0 = Except.ok s1) :
    (s0.keyPair.IsEmpty = false →
      (∀ p, Event.keypairUpdate p ∉ (execute c cfg s0).2) ∧
      ∀ σ, Event.setState σ ∈ (execute c cfg s0).2 → σ.keyPair = s0.keyPair) ∧
    (s0.keyPair.IsEmpty = true → validateState s1 = Except.ok () →
      c.setAfterCreds = none → c.setConfigErr = none →
      keypairCalls (execute c cfg s0).2 = 1 ∧
      (c.keyPairUpdate.1 = none →
        ∀ σ, Event.setState σ ∈ (execute c cfg s0).2 →
          σ = s1 ∨ σ.keyPair = c.keyPairUpdate.2)) := by
  have hfr := configuredState_frame c cfg s0 s1 hc
  constructor
  · intro hk0
    have hk1 : s1.keyPair.IsEmpty = false := by rw [hfr.2.1]; exact hk0
    have hks : keypairState c s1 = s1 := by simp [keypairState, hk1]
    constructor
    · intro p hm
      have hfull := mem_execute_fullTrace c cfg s0 _ hm
      cases hv : validateState s1 with
      | error e => simp [fullTrace, hc, hv] at hfull
      | ok u =>
        simp [fullTrace, hc, hv, hk1, fullTraceTail] at hfull
    · intro σ hm
      have hfull := mem_execute_fullTrace c cfg s0 _ hm
      rcases setState_mem_fullTrace c cfg s0 s1 σ hc hfull with h4 | h4 | h4 | h4
      · rw [h4]
        exact hfr.2.1
      · rw [h4, hks]
        exact hfr.2.1
      · rw [h4]
        show (keypairState c s1).keyPair = s0.keyPair
        rw [hks]
        exact hfr.2.1
      · rw [h4]
        show (keypairState c s1).keyPair = s0.keyPair
        rw [hks]
        exact hfr.2.1
  · intro hk0 hv h1 h2
    have hk1 : s1.keyPair.IsEmpty = true := by rw [hfr.2.1]; exact hk0
    constructor
    · cases h3 : c.keyPairUpdate.1 with
      | some e =>
        simp [execute, hc, hv, h1, h2, hk1, h3, keypairCalls]
      | none =>
        cases h4 : c.setAfterKeyPair with
        | some e =>
          simp [execute, hc, hv, h1, h2, hk1, h3, h4, keypairCalls]
        | none =>
          have ht0 := keypairCalls_executeTail c (keypairState c s1)
          simp [execute, hc, hv, h1, h2, hk1, h3, h4, keypairCalls] at ht0 ⊢
          exact ht0
    · intro h3 σ hm
      have hfull := mem_execute_fullTrace c cfg s0 _ hm
      rcases setState_mem_fullTrace c cfg s0 s1 σ hc hfull with h4 | h4 | h4 | h4
      · exact Or.inl h4
      · rw [h4]
        right
        simp [keypairState, hk1]
      · rw [h4]
        right
        show (keypairState c s1).keyPair = c.keyPairUpdate.2
        simp [keypairState, hk1]
      · rw [h4]
        right
        show (keypairState c s1).keyPair = c.keyPairUpdate.2
        simp [keypairState, hk1]

/-- Witness for C3: a concrete run from an empty keypair calls the
generator exactly once. -/
theorem claimC3_witness :
    keypairCalls (execute collabAllOK {} stateGCPReady).2 = 1 :=
  ((claimC3_keypair_idempotent collabAllOK {} stateGCPReady stateGCPReady rfl).2
    rfl rfl rfl rfl).1

/-- Counterexample to C4: a state missing all four GCP credential fields
gets exactly the same single-field error as a state missing only the
service account key, so the error cannot enumerate every missing field. -/
theorem claimC4_counterexample :
    validateState stateNoCreds = Except.error "GCP service account key must be provided" ∧
    validateState stateOnlySAKMissing =
      Except.error "GCP service account key must be provided" ∧
    stateNoCreds.gcp.projectID = "" ∧ stateNoCreds.gcp.region = "" ∧
    stateNoCreds.gcp.zone = "" ∧ stateOnlySAKMissing.gcp.projectID ≠ "" :=
  ⟨rfl, rfl, rfl, rfl, rfl, by decide⟩

/-- C4 as amended: GCPUp.validateState succeeds exactly when all four GCP
credential fields are present, and otherwise reports only the first
missing field in the fixed order service account key, project ID, region,
zone. -/
theorem claimC4_first_missing_credential (s : State) :
    (validateState s = Except.ok () ↔
      s.gcp.serviceAccountKey ≠ "" ∧ s.gcp.projectID ≠ "" ∧ s.gcp.region ≠ "" ∧
        s.gcp.zone ≠ "") ∧
    (s.gcp.serviceAccountKey = "" →
      validateState s = Except.error "GCP service account key must be provided") ∧
    (s.gcp.serviceAccountKey ≠ "" → s.gcp.projectID = "" →
      validateState s = Except.error "GCP project ID must be provided") ∧
    (s.gcp.serviceAccountKey ≠ "" → s.gcp.projectID ≠ "" → s.gcp.region = "" →
      validateState s = Except.error "GCP region must be provided") ∧
    (s.gcp.serviceAccountKey ≠ "" → s.gcp.projectID ≠ "" → s.gcp.region ≠ "" →
      s.gcp.zone = "" →
      validateState s = Except.error "GCP zone must be provided") := by
  unfold validateState
  split_ifs with h1 h2 h3 h4 <;> simp_all

/-- Witness for the amended C4. -/
theorem claimC4_witness :
    validateState stateOnlySAKMissing =
      Except.error "GCP service account key must be provided" :=
  (claimC4_first_missing_credential stateOnlySAKMissing).2.1 rfl

/-- Counterexample to C5: the region "narnia" is absent from the static
table, getAZs returns the empty list rather than an error, and a full
"up" run with that region succeeds, handing the empty AZ list to the
cloud-config generator. -/
theorem claimC5_counterexample :
    getAZs "narnia" = [] ∧
    (execute collabAllOK {} stateUnknownRegion).1 = Except.ok () ∧
    Event.generateCloudConfig [] ["v-internal_tag_name"] ∈
      (execute collabAllOK {} stateUnknownRegion).2 := by
  refine ⟨rfl, rfl, ?_⟩
  decide

/-- C5 as amended: the region to availability-zone lookup is a static
table keyed by exactly six regions; a region absent from the table yields
the empty AZ list (not an error), and a region present in the table yields
a non-empty one. -/
theorem claimC5_static_az_table (r : String) :
    (r ∉ azRegions → getAZs r = []) ∧ (r ∈ azRegions → getAZs r ≠ []) := by
  constructor <;> intro h
  · simp [azRegions] at h
    obtain ⟨n1, n2, n3, n4, n5, n6⟩ := h
    simp [getAZs, n1, n2, n3, n4, n5, n6]
  · simp [azRegions] at h
    rcases h with h | h | h | h | h | h <;> subst h <;> simp [getAZs]

/-- Witness for the amended C5. -/
theorem claimC5_witness : getAZs "narnia" = [] :=
  (claimC5_static_az_table "narnia").1 (by decide)

/-- C6: the director-address query with NoDirector=true returns
https with the external IP and port 25555 — on AWS the BOSHEIP output of
the described stack, on GCP the terraform external_ip output — and with
NoDirector=false it returns the persisted state.BOSH.DirectorAddress
(when non-empty, as Execute errors on empty values). -/
theorem claimC6_director_address (o : QOracles) (s : State) (ip : String) :
    (s.noDirector = true → s.iaas = "aws" → o.describe.1 = none →
      stateQueryExecute o directorAddressPropertyName s =
        Except.ok ("https://" ++ o.describe.2 "BOSHEIP" ++ ":25555")) ∧
    (s.noDirector = true → s.iaas = "gcp" → o.getOutputs.1 = none →
      o.getOutputs.2.lookup "external_ip" = some ip →
      stateQueryExecute o directorAddressPropertyName s =
        Except.ok ("https://" ++ ip ++ ":25555")) ∧
    (s.noDirector = false → s.bosh.directorAddress ≠ "" →
      stateQueryExecute o directorAddressPropertyName s =
        Except.ok s.bosh.directorAddress) := by
  refine ⟨fun hnd hiaas hd => ?_, fun hnd hiaas hg hlk => ?_, fun hnd hne => ?_⟩
  · simp [stateQueryExecute, resolveProperty, getEIP, directorAddressPropertyName,
      jumpboxAddressPropertyName, hnd, hiaas, hd, https_ne_empty]
  · simp [stateQueryExecute, resolveProperty, getEIP, directorAddressPropertyName,
      jumpboxAddressPropertyName, hnd, hiaas, hg, hlk, https_ne_empty]
  · simp [stateQueryExecute, resolveProperty, directorAddressPropertyName,
      jumpboxAddressPropertyName, hnd, hne]

/-- Witness for C6 on a concrete AWS state. -/
theorem claimC6_witness :
    stateQueryExecute oAWS directorAddressPropertyName sAWSNoDir =
      Except.ok ("https://" ++ oAWS.describe.2 "BOSHEIP" ++ ":25555") :=
  (claimC6_director_address oAWS sAWSNoDir "").1 rfl rfl rfl

/-- C7: with a valid state directory and NoDirector=true, CheckFastFails
returns the error "Error BBL does not manage this director." exactly for
property names other than director address and environment id, and
succeeds for those two. -/
theorem claimC7_no_director_fast_fail (o : QOracles) (p : String) (s : State)
    (hv : o.validateErr = none) (hnd : s.noDirector = true) :
    (checkFastFails o p s =
        Except.error (QErr.msg "Error BBL does not manage this director.") ↔
      (p ≠ directorAddressPropertyName ∧ p ≠ envIDPropertyName)) ∧
    ((p = directorAddressPropertyName ∨ p = envIDPropertyName) →
      checkFastFails o p s = Except.ok ()) := by
  simp only [checkFastFails, hv]
  by_cases h1p : p = directorAddressPropertyName
  · have hnc : ¬(s.noDirector = true ∧ p ≠ directorAddressPropertyName ∧
        p ≠ envIDPropertyName) := by simp [h1p]
    simp only [if_neg hnc]
    constructor
    · simp [h1p]
    · intro hp
      trivial
  · by_cases h2p : p = envIDPropertyName
    · have hnc : ¬(s.noDirector = true ∧ p ≠ directorAddressPropertyName ∧
          p ≠ envIDPropertyName) := by simp [h2p]
      simp only [if_neg hnc]
      constructor
      · simp [h2p]
      · intro hp
        trivial
    · have hcnd : s.noDirector = true ∧ p ≠ directorAddressPropertyName ∧
          p ≠ envIDPropertyName := ⟨hnd, h1p, h2p⟩
      simp only [if_pos hcnd]
      constructor
      · simp [h1p, h2p]
      · intro hp
        rcases hp with hp | hp
        · exact absurd hp h1p
        · exact absurd hp h2p

/-- Witness for C7 at the director password property. -/
theorem claimC7_witness :
    checkFastFails {} directorPasswordPropertyName { noDirector := true } =
      Except.error (QErr.msg "Error BBL does not manage this director.") :=
  (claimC7_no_director_fast_fail {} directorPasswordPropertyName { noDirector := true }
    rfl rfl).1.mpr (by decide)

/-- C8: on a state whose director sub-document is already populated,
every state the "up" pipeline persists carries either the untouched
director sub-document or that sub-document with only the deployment-tool
state and manifest replaced by the new deploy output; a successful run
persists the latter. -/
theorem claimC8_redeploy_preserves_credentials (c : Collab) (cfg : GCPUpConfig)
    (s0 s1 : State) (hc : configuredState c cfg s0 = Except.ok s1)
    (hbosh : s0.bosh.IsEmpty = false) :
    (∀ σ, Event.setState σ ∈ (execute c cfg s0).2 →
      σ.bosh = s0.bosh ∨
      σ.bosh = { s0.bosh with boshState := c.deploy.2.boshInitState,
                              manifest := c.deploy.2.boshInitManifest }) ∧
    ((execute c cfg s0).1 = Except.ok () →
      ∃ σ, Event.setState σ ∈ (execute c cfg s0).2 ∧
        σ.bosh = { s0.bosh with boshState := c.deploy.2.boshInitState,
                                manifest := c.deploy.2.boshInitManifest }) := by
  have hfr := configuredState_frame c cfg s0 s1 hc
  have happ : (appliedState c (keypairState c s1)).bosh = s0.bosh := by
    show (keypairState c s1).bosh = s0.bosh
    rw [(keypairState_frame c s1).2.2.1]
    exact hfr.2.2.2
  have hdb : deployedBOSH c (appliedState c (keypairState c s1)) = s0.bosh := by
    unfold deployedBOSH
    rw [happ, hbosh]
    simp
  have hdep : (deployedState c (keypairState c s1)).bosh =
      { s0.bosh with boshState := c.deploy.2.boshInitState,
                     manifest := c.deploy.2.boshInitManifest } := by
    show { deployedBOSH c (appliedState c (keypairState c s1)) with
             boshState := c.deploy.2.boshInitState,
             manifest := c.deploy.2.boshInitManifest } = _
    rw [hdb]
  constructor
  · intro σ hm
    have hfull := mem_execute_fullTrace c cfg s0 _ hm
    rcases setState_mem_fullTrace c cfg s0 s1 σ hc hfull with h4 | h4 | h4 | h4
    · rw [h4]
      exact Or.inl hfr.2.2.2
    · rw [h4, (keypairState_frame c s1).2.2.1]
      exact Or.inl hfr.2.2.2
    · rw [h4]
      exact Or.inl happ
    · rw [h4]
      exact Or.inr hdep
  · intro hok
    refine ⟨deployedState c (keypairState c s1), ?_, hdep⟩
    rw [(execute_trace c cfg s0).2 hok]
    cases hv : validateState s1 with
    | error e => simp [execute, hc, hv] at hok
    | ok u =>
      cases hk : s1.keyPair.IsEmpty with
      | true => simp [fullTrace, hc, hv, hk, fullTraceTail]
      | false => simp [fullTrace, hc, hv, hk, fullTraceTail]

/-- Witness for C8: a concrete re-deploy over a populated director
persists the director document with only state and manifest replaced. -/
theorem claimC8_witness :
    ∃ σ, Event.setState σ ∈ (execute collabAllOK {} stateWithBOSH).2 ∧
      σ.bosh = { stateWithBOSH.bosh with
                   boshState := collabAllOK.deploy.2.boshInitState,
                   manifest := collabAllOK.deploy.2.boshInitManifest } :=
  (claimC8_redeploy_preserves_credentials collabAllOK {} stateWithBOSH stateWithBOSH
    rfl rfl).2 rfl

/-- C9: for an input state with a non-empty EnvID, every state the "up"
pipeline hands to stateStore.Set carries the same EnvID as the input. -/
theorem claimC9_envID_immutable (c : Collab) (cfg : GCPUpConfig) (s0 : State)
    (h : s0.envID ≠ "") :
    ∀ σ, Event.setState σ ∈ (execute c cfg s0).2 → σ.envID = s0.envID := by
  intro σ hm
  have hfull := mem_execute_fullTrace c cfg s0 _ hm
  cases hc : configuredState c cfg s0 with
  | error e => simp [fullTrace, hc] at hfull
  | ok s1 =>
    have hfr := configuredState_frame c cfg s0 s1 hc
    rcases setState_mem_fullTrace c cfg s0 s1 σ hc hfull with h4 | h4 | h4 | h4
    · rw [h4]
      exact hfr.1
    · rw [h4, (keypairState_frame c s1).1]
      exact hfr.1
    · rw [h4]
      show (keypairState c s1).envID = s0.envID
      rw [(keypairState_frame c s1).1]
      exact hfr.1
    · rw [h4]
      show (keypairState c s1).envID = s0.envID
      rw [(keypairState_frame c s1).1]
      exact hfr.1

/-- Witness for C9 at a concrete run and persisted state. -/
theorem claimC9_witness :
    (deployedState collabAllOK (keypairState collabAllOK stateGCPReady)).envID =
      stateGCPReady.envID :=
  claimC9_envID_immutable collabAllOK {} stateGCPReady (by decide)
    (deployedState collabAllOK (keypairState collabAllOK stateGCPReady)) (by decide)

/-- C10: when the property-value resolution of a state query succeeds,
Execute prints the value and returns no error exactly when the value is
non-empty, and returns the "Could not retrieve" error (printing nothing)
exactly when it is empty. -/
theorem claimC10_empty_value_error (o : QOracles) (p : String) (s : State) (v : String)
    (h : resolveProperty o p s = Except.ok v) :
    (v = "" → stateQueryExecute o p s = Except.error (QErr.msg
      ("Could not retrieve " ++ p ++
        ", please make sure you are targeting the proper state dir."))) ∧
    (v ≠ "" → stateQueryExecute o p s = Except.ok v) := by
  constructor <;> intro hv <;> simp [stateQueryExecute, h, hv]

/-- Witness for C10: jumpbox-address with a disabled jumpbox resolves to
the empty string and errors. -/
theorem claimC10_witness :
    stateQueryExecute {} jumpboxAddressPropertyName stateGCPReady =
      Except.error (QErr.msg
        "Could not retrieve jumpbox address, please make sure you are targeting the proper state dir.") :=
  (claimC10_empty_value_error {} jumpboxAddressPropertyName stateGCPReady "" rfl).1 rfl

end BBL
